import Mathlib

/-!
Verification development for the Expence-Tracker backend
(src/Expence-Manager-Backend/{data_access.py, main.py, main1.py}).

The embedding models the balance-computation engine and the store
operations that the specification describes:

* amounts are embedded as integers in exact currency units: the
  engine only ever adds and subtracts amounts, so any additive group
  of exact numbers is a faithful carrier (Python floats carry the same
  additive structure on the values the engine manipulates);
* a transaction record mirrors the columns of the SQLite schema /
  Mongo document (id, user_id, date, description, place, amount, type,
  category, account, to_account, paid_by, status, transaction_balance);
* the balance dictionary of get_account_balances is embedded as a
  finite partial map (a function to Option): Python raises KeyError on
  a missing key, which the embedding renders as None propagation;
* raising ValueError before any write is embedded as Except.error.
-/

/-- Python str.lower(), as the engine uses it: lowercase every
character (the engine only ever compares the result against the five
ASCII type literals). Defined by structural recursion over the
character list so that it evaluates inside the kernel. -/
def pyLower (s : String) : String :=
  ⟨s.data.map Char.toLower⟩

/-- A stored transaction record, mirroring the fields of the SQLite
`transactions` table and of the Mongo transaction documents.
`transaction_balance` is an Option because MongoDB.add_transaction
only sets the key for the five recognised types. -/
structure Txn where
  id : String
  user_id : String
  date : String
  description : String
  place : String
  amount : ℤ
  type : String
  category : String
  account : String
  to_account : String
  paid_by : String
  status : String
  transaction_balance : Option ℤ
deriving DecidableEq, Repr

/-- An incoming transaction-insert request (the fields the HTTP layer
supplies before the engine computes transaction_balance). -/
structure TxnReq where
  date : String
  description : String
  place : String
  amount : ℤ
  type : String
  category : String
  account : String
  to_account : String
  paid_by : String
  status : String
deriving DecidableEq, Repr

/-- One row of the accounts registry (the fields relevant to balance
computation: owner and unique-per-owner name). -/
structure Account where
  user_id : String
  name : String
deriving DecidableEq, Repr

/-- The persistent state visible to the engine: the accounts registry
and the transaction log in insertion order (oldest first; the stores
sort by created_at descending when reading, which the read helpers
reproduce by reversing). -/
structure St where
  accounts : List Account
  txs : List Txn
deriving Repr

/-- Account names registered for an owner
(MongoDB.get_accounts / SQLiteDatabase.get_accounts projected to names). -/
def userAccountNames (st : St) (uid : String) : List String :=
  (st.accounts.filter (fun a => a.user_id = uid)).map (fun a => a.name)

/-- The owner's transactions in insertion order. -/
def userTxs (st : St) (uid : String) : List Txn :=
  st.txs.filter (fun t => t.user_id = uid)

/-- Existence of an account with the given owner and name
(the find_one({"user_id": ..., "name": ...}) check of
ExpenseTracker.add_transaction in main.py). -/
def accountExists (st : St) (uid n : String) : Prop :=
  ∃ a ∈ st.accounts, a.user_id = uid ∧ a.name = n

instance (st : St) (uid n : String) : Decidable (accountExists st uid n) :=
  List.decidableBEx _ st.accounts

/-- The balance dictionary of get_account_balances: a partial map from
account name to balance. A missing key is None (Python: KeyError). -/
def BalMap := String → Option ℤ

/-- The dict comprehension seeding every known account to 0.0:
balances = \x7baccount[name]: 0.0 for account in accounts\x7d. -/
def seed (accounts : List String) : BalMap :=
  fun k => if k ∈ accounts then some 0 else none

/-- Python dict in-place addition balances[k] += v: fails (KeyError)
when the key is absent, otherwise updates it. -/
def dadd (m : BalMap) (k : String) (v : ℤ) : Option BalMap :=
  match m k with
  | none => none
  | some x => some (fun k2 => if k2 = k then some (x + v) else m k2)

/-- The per-transaction body of the aggregate-balance loop, shared
verbatim by MongoDB.get_account_balances,
SQLiteDatabase.get_account_balances and
ExpenseTracker.get_all_account_balances:

  if type == "credit": balances[account] += amount
  elif type == "debit": balances[account] -= amount
  elif type == "debt_incurred": balances[account] -= amount
  elif type in ["transferred", "self_transferred"]:
      balances[account] -= amount
      if to_account != "None": balances[to_account] += amount

An unrecognised type matches no branch and leaves the dict untouched. -/
def applyTx (m : BalMap) (t : Txn) : Option BalMap :=
  let ty := pyLower t.type
  if ty = "credit" then dadd m t.account t.amount
  else if ty = "debit" then dadd m t.account (-t.amount)
  else if ty = "debt_incurred" then dadd m t.account (-t.amount)
  else if ty = "transferred" ∨ ty = "self_transferred" then
    match dadd m t.account (-t.amount) with
    | none => none
    | some m1 => if t.to_account ≠ "None" then dadd m1 t.to_account t.amount else some m1
  else some m

/-- The aggregate loop over the whole history; a KeyError aborts the
computation (None). -/
def applyAll (m : BalMap) : List Txn → Option BalMap
  | [] => some m
  | t :: ts =>
    match applyTx m t with
    | none => none
    | some m1 => applyAll m1 ts

/-- The pure aggregate-balance computation (spec section 6
compute_aggregate_balances): seed the known accounts with 0.0 and fold
the history. The stores iterate newest-first (created_at descending),
hence the reverse of the insertion-ordered log. -/
def compute_aggregate_balances (accounts : List String) (txs : List Txn) : Option BalMap :=
  applyAll (seed accounts) txs.reverse

namespace MongoDB

/-- MongoDB.get_account_balances (data_access.py lines 172-193):
seed from get_accounts, fold get_transactions (newest first). -/
def get_account_balances (st : St) (uid : String) : Option BalMap :=
  compute_aggregate_balances (userAccountNames st uid) (userTxs st uid)

/-- The running-balance fold of MongoDB.add_transaction
(data_access.py lines 107-123), over the history filtered to the new
transaction's account (acct):

  if type == "credit": prev += amount
  elif type == "debit": prev -= amount
  elif type == "debt_incurred": prev -= amount
  elif type in ["transferred", "self_transferred"]:
      prev -= amount
      if to_account == acct: prev += amount
-/
def prevBalance (hist : List Txn) (acct : String) : ℤ :=
  hist.foldl
    (fun b t =>
      let ty := pyLower t.type
      if ty = "credit" then b + t.amount
      else if ty = "debit" then b - t.amount
      else if ty = "debt_incurred" then b - t.amount
      else if ty = "transferred" ∨ ty = "self_transferred" then
        let b1 := b - t.amount
        if t.to_account = acct then b1 + t.amount else b1
      else b)
    0

/-- Applying the new transaction itself on top of the folded balance
(data_access.py lines 126-139). No branch matches an unrecognised
type, so the transaction_balance key is never set (None). -/
def applyNew (prev : ℤ) (r : TxnReq) : Option ℤ :=
  let ty := pyLower r.type
  if ty = "credit" then some (prev + r.amount)
  else if ty = "debit" then some (prev - r.amount)
  else if ty = "debt_incurred" then some (prev - r.amount)
  else if ty = "transferred" ∨ ty = "self_transferred" then
    let v := prev - r.amount
    some (if r.to_account = r.account then v + r.amount else v)
  else none

/-- End-to-end insert-time balance of the persistent-store backends
(MongoDB.add_transaction and, identically, SQLiteDatabase.add_transaction):
filter the owner's history to the same account, fold, apply the new
transaction. -/
def insertBalance (hist : List Txn) (r : TxnReq) : Option ℤ :=
  applyNew (prevBalance ((hist.filter (fun t => t.account = r.account)).reverse) r.account) r

/-- MongoDB.add_transaction (data_access.py lines 102-142): computes
the running balance and unconditionally inserts the record — it
performs no account-existence and no amount validation. The fresh
document id is modelled as a counter over the log length. -/
def add_transaction (st : St) (uid : String) (r : TxnReq) : St :=
  { st with
    txs := st.txs ++
      [{ id := toString st.txs.length
         user_id := uid
         date := r.date
         description := r.description
         place := r.place
         amount := r.amount
         type := r.type
         category := r.category
         account := r.account
         to_account := r.to_account
         paid_by := r.paid_by
         status := r.status
         transaction_balance := insertBalance (userTxs st uid) r }] }

/-- MongoDB.delete_transaction (data_access.py lines 158-163) and
ExpenseTracker.delete_transaction (main.py lines 346-355):
delete_one removes the first document matching the id and the owner;
the boolean result is deleted_count > 0. -/
def delete_transaction : List Txn → String → String → List Txn × Bool
  | [], _, _ => ([], false)
  | t :: ts, uid, tid =>
    if t.id = tid ∧ t.user_id = uid then (ts, true)
    else
      let r := delete_transaction ts uid tid
      (t :: r.1, r.2)

/-- MongoDB.update_transaction_status (data_access.py lines 165-170)
and ExpenseTracker.update_transaction_status (main.py lines 357-366):
update_one sets the status field of the first document matching the id
and the owner; the boolean result is modified_count > 0, which is
false both when no document matches and when the matched document
already carries the new status. -/
def update_transaction_status : List Txn → String → String → String → List Txn × Bool
  | [], _, _, _ => ([], false)
  | t :: ts, uid, tid, s =>
    if t.id = tid ∧ t.user_id = uid then
      ({ t with status := s } :: ts, decide (t.status ≠ s))
    else
      let r := update_transaction_status ts uid tid s
      (t :: r.1, r.2)

end MongoDB

namespace SQLiteDatabase

/-- SQLiteDatabase.delete_transaction (data_access.py lines 401-406):
DELETE FROM transactions WHERE id = ? AND user_id = ?, then
return True — unconditionally, whether or not any row matched. -/
def delete_transaction (txs : List Txn) (uid tid : String) : List Txn × Bool :=
  (txs.filter (fun t => ¬ (t.id = tid ∧ t.user_id = uid)), true)

/-- SQLiteDatabase.update_transaction_status (data_access.py lines
408-413): UPDATE transactions SET status = ? WHERE id = ? AND
user_id = ?, then return True — unconditionally. -/
def update_transaction_status (txs : List Txn) (uid tid s : String) : List Txn × Bool :=
  (txs.map (fun t => if t.id = tid ∧ t.user_id = uid then { t with status := s } else t), true)

end SQLiteDatabase

/-- The typed error an insert can raise: main.py raises
ValueError("Account ... does not exist.") before any write; the spec
names this failure UnknownAccount. -/
inductive Err where
  | UnknownAccount (name : String)
deriving DecidableEq, Repr

namespace ExpenseTracker

/-- The outgoing leg of the running-balance scan in
ExpenseTracker.add_transaction (main.py lines 287-299):

  if type == "credit": prev += amount
  elif type in ["debit", "debt_incurred", "transferred", "self_transferred"]: prev -= amount

Note: unlike the data_access fold, an outgoing self-transfer gets no
add-back here; incoming transfers are handled by a second scan. -/
def outgoingStep (b : ℤ) (t : Txn) : ℤ :=
  let ty := pyLower t.type
  if ty = "credit" then b + t.amount
  else if ty = "debit" ∨ ty = "debt_incurred" ∨ ty = "transferred" ∨ ty = "self_transferred" then
    b - t.amount
  else b

/-- The full-ledger running balance of ExpenseTracker.add_transaction
(main.py lines 285-310): fold the outgoing transactions (account =
acct), then add every incoming transfer (to_account = acct and type in
["transferred", "self_transferred"] — an exact, case-sensitive Mongo
query, unlike the lowered comparisons of the folds). The source sorts
both cursors by date; both legs are plain sums, so the fold order does
not affect the result, and the embedding folds in insertion order. -/
def prevBalance (hist : List Txn) (acct : String) : ℤ :=
  let afterOutgoing := (hist.filter (fun t => t.account = acct)).foldl outgoingStep 0
  (hist.filter (fun t =>
      t.to_account = acct ∧ (t.type = "transferred" ∨ t.type = "self_transferred"))).foldl
    (fun b t => b + t.amount) afterOutgoing

/-- Applying the new transaction on top of the full-ledger balance
(main.py lines 312-324). transaction_balance is initialised to
prev_balance, so an unrecognised type stores prev_balance unchanged.
For a transfer the source credits the amount when account ==
to_account and debits it otherwise. -/
def applyNew (prev : ℤ) (r : TxnReq) : ℤ :=
  let ty := pyLower r.type
  if ty = "credit" then prev + r.amount
  else if ty = "debit" ∨ ty = "debt_incurred" then prev - r.amount
  else if ty = "transferred" ∨ ty = "self_transferred" then
    if r.account = r.to_account then prev + r.amount else prev - r.amount
  else prev

/-- End-to-end insert-time balance of the main.py code path (the
full-ledger variant). -/
def insertBalance (hist : List Txn) (r : TxnReq) : ℤ :=
  applyNew (prevBalance hist r.account) r

/-- ExpenseTracker.add_transaction (main.py lines 270-343): validate
that the source account exists, validate the destination account when
it is not the "None" sentinel (both failures raise ValueError before
any write), then compute the running balance and insert the record. -/
def add_transaction (st : St) (uid : String) (r : TxnReq) : Except Err St :=
  if ¬ accountExists st uid r.account then .error (.UnknownAccount r.account)
  else if r.to_account ≠ "None" ∧ ¬ accountExists st uid r.to_account then
    .error (.UnknownAccount r.to_account)
  else .ok
    { st with
      txs := st.txs ++
        [{ id := toString st.txs.length
           user_id := uid
           date := r.date
           description := r.description
           place := r.place
           amount := r.amount
           type := r.type
           category := r.category
           account := r.account
           to_account := r.to_account
           paid_by := r.paid_by
           status := r.status
           transaction_balance := some (insertBalance (userTxs st uid) r) }] }

/-- ExpenseTracker.get_all_account_balances (main.py lines 434-456):
the same seed-and-fold aggregate as the data_access backends. -/
def get_all_account_balances (st : St) (uid : String) : Option BalMap :=
  compute_aggregate_balances (userAccountNames st uid) (userTxs st uid)

end ExpenseTracker

/-! ### Characterisation of the aggregate per-transaction step

applyTx either fails (exactly when it reads a key that is absent from
the dictionary) or adds, to every key, a delta that depends only on
the transaction. This normal form drives the conservation,
commutativity and totality theorems below. -/

/-- The net amount a single transaction contributes to the balance of
key k in the aggregate fold. -/
def txDelta (t : Txn) (k : String) : ℤ :=
  let ty := pyLower t.type
  (if k = t.account then
    (if ty = "credit" then t.amount
     else if ty = "debit" ∨ ty = "debt_incurred" ∨ ty = "transferred" ∨ ty = "self_transferred" then
       -t.amount
     else 0)
   else 0)
  + (if (ty = "transferred" ∨ ty = "self_transferred") ∧ t.to_account ≠ "None" ∧ k = t.to_account then
      t.amount
     else 0)

/-- Pointwise application of a transaction's deltas to the dictionary. -/
def shift (m : BalMap) (t : Txn) : BalMap :=
  fun k => (m k).map (fun x => x + txDelta t k)

/-- The keys applyTx reads are present: the source account for every
recognised type, and additionally the destination account for a
transfer whose to_account is not the sentinel. -/
def txOK (m : BalMap) (t : Txn) : Prop :=
  ((pyLower t.type = "credit" ∨ pyLower t.type = "debit" ∨ pyLower t.type = "debt_incurred") →
    (m t.account).isSome)
  ∧ ((pyLower t.type = "transferred" ∨ pyLower t.type = "self_transferred") →
      (m t.account).isSome ∧ (t.to_account ≠ "None" → (m t.to_account).isSome))

/-- Balance dictionary lookup with default 0, used only to state
theorems about values at keys known to be present. -/
def val (m : BalMap) (k : String) : ℤ :=
  (m k).getD 0
/-- The keys the aggregate loop would read from the balance
dictionary for one transaction, phrased against the list of known
account names: the source account for every recognised type, and the
destination account of a transfer when to_account is not the
sentinel. -/
def refOK (accounts : List String) (t : Txn) : Prop :=
  ((pyLower t.type = "credit" ∨ pyLower t.type = "debit" ∨ pyLower t.type = "debt_incurred") →
    t.account ∈ accounts)
  ∧ ((pyLower t.type = "transferred" ∨ pyLower t.type = "self_transferred") →
      t.account ∈ accounts ∧ (t.to_account ≠ "None" → t.to_account ∈ accounts))

instance (accounts : List String) (t : Txn) : Decidable (refOK accounts t) := by
  unfold refOK
  infer_instance
/-- Equality of two transaction records on every field except status. -/
def frameEq (a b : Txn) : Prop :=
  a.id = b.id ∧ a.user_id = b.user_id ∧ a.date = b.date ∧ a.description = b.description
  ∧ a.place = b.place ∧ a.amount = b.amount ∧ a.type = b.type ∧ a.category = b.category
  ∧ a.account = b.account ∧ a.to_account = b.to_account ∧ a.paid_by = b.paid_by
  ∧ a.transaction_balance = b.transaction_balance

/-! ### Concrete scenario inputs used by the claim theorems and
their witnesses. -/

/-- Owner u1 with two empty accounts Checking and Wallet. -/
def stC1 : St :=
  { accounts := [{ user_id := "u1", name := "Checking" }, { user_id := "u1", name := "Wallet" }]
    txs := [] }

/-- A credit of 100 into Checking. -/
def reqCredit100 : TxnReq :=
  { date := "2024-01-01", description := "pay", place := "bank", amount := 100
    type := "credit", category := "salary", account := "Checking"
    to_account := "None", paid_by := "Self", status := "Pending" }

/-- A transfer of 30 from Checking to Wallet. -/
def reqTransfer30 : TxnReq :=
  { date := "2024-01-02", description := "move", place := "bank", amount := 30
    type := "transferred", category := "transfer", account := "Checking"
    to_account := "Wallet", paid_by := "Self", status := "Pending" }

/-- The state after inserting the credit and then the transfer
through the persistent-store insert path. -/
def stC1b : St :=
  MongoDB.add_transaction (MongoDB.add_transaction stC1 "u1" reqCredit100) "u1" reqTransfer30

/-- Owner u1 with the single account Checking. -/
def stC2 : St :=
  { accounts := [{ user_id := "u1", name := "Checking" }], txs := [] }

/-- A credit naming the nonexistent account Ghost. -/
def reqGhost : TxnReq :=
  { date := "2024-02-01", description := "x", place := "y", amount := 10
    type := "credit", category := "misc", account := "Ghost"
    to_account := "None", paid_by := "Self", status := "Pending" }

/-- A transfer from the existing Checking to the nonexistent Ghost2. -/
def reqGhostTo : TxnReq :=
  { date := "2024-02-02", description := "x", place := "y", amount := 10
    type := "transferred", category := "misc", account := "Checking"
    to_account := "Ghost2", paid_by := "Self", status := "Pending" }

/-- A stored transfer of 30 from account A to account B. -/
def tDiv : Txn :=
  { id := "0", user_id := "u1", date := "2024-03-01", description := "move", place := "bank"
    amount := 30, type := "transferred", category := "transfer", account := "A"
    to_account := "B", paid_by := "Self", status := "Pending", transaction_balance := some (-30) }

/-- A new credit of 5 into account B. -/
def rDiv : TxnReq :=
  { date := "2024-03-02", description := "top up", place := "bank", amount := 5
    type := "credit", category := "misc", account := "B"
    to_account := "None", paid_by := "Self", status := "Pending" }

/-- A stored credit of 40 into account A. -/
def tCr : Txn :=
  { id := "1", user_id := "u1", date := "2024-03-03", description := "pay", place := "bank"
    amount := 40, type := "credit", category := "salary", account := "A"
    to_account := "None", paid_by := "Self", status := "Pending", transaction_balance := some 40 }

/-- Owner u1 with the single account Cash. -/
def stC6 : St :=
  { accounts := [{ user_id := "u1", name := "Cash" }], txs := [] }

/-- A debit with a negative amount. -/
def reqNeg : TxnReq :=
  { date := "2024-04-01", description := "typo", place := "shop", amount := -5
    type := "debit", category := "misc", account := "Cash"
    to_account := "None", paid_by := "Self", status := "Pending" }

/-- A stored transaction with id 7 belonging to u1. -/
def tId7 : Txn :=
  { id := "7", user_id := "u1", date := "2024-05-01", description := "d", place := "p"
    amount := 12, type := "debit", category := "misc", account := "Cash"
    to_account := "None", paid_by := "Self", status := "Pending", transaction_balance := some (-12) }

theorem shift_isSome (m : BalMap) (t : Txn) (k : String) :
    ((shift m t) k).isSome = (m k).isSome := by
  unfold shift
  cases m k <;> simp

theorem txOK_shift (m : BalMap) (t t' : Txn) : txOK (shift m t') t ↔ txOK m t := by
  unfold txOK
  simp only [shift_isSome]

theorem shift_comm (m : BalMap) (a b : Txn) :
    shift (shift m a) b = shift (shift m b) a := by
  funext k
  unfold shift
  cases m k <;> simp
  ring

theorem applyTx_spec (m : BalMap) (t : Txn) :
    (txOK m t ∧ applyTx m t = some (shift m t)) ∨ (¬ txOK m t ∧ applyTx m t = none) := by
  by_cases hc : pyLower t.type = "credit"
  · cases hma : m t.account with
    | none =>
      right
      refine ⟨fun h => ?_, ?_⟩
      · have h1 := h.1 (Or.inl hc)
        rw [hma] at h1
        simp at h1
      · simp [applyTx, hc, dadd, hma]
    | some x =>
      left
      refine ⟨by simp [txOK, hc, hma], ?_⟩
      simp only [applyTx, hc]
      simp [dadd, hma]
      funext k
      by_cases hk : k = t.account
      · subst hk
        simp [shift, txDelta, hc, hma]
      · simp [shift, txDelta, hc, hk]
  · by_cases hd : pyLower t.type = "debit"
    · cases hma : m t.account with
      | none =>
        right
        refine ⟨fun h => ?_, ?_⟩
        · have h1 := h.1 (Or.inr (Or.inl hd))
          rw [hma] at h1
          simp at h1
        · simp [applyTx, hd, dadd, hma]
      | some x =>
        left
        refine ⟨by simp [txOK, hd, hma], ?_⟩
        simp only [applyTx, hd]
        simp [dadd, hma]
        funext k
        by_cases hk : k = t.account
        · subst hk
          simp [shift, txDelta, hd, hma]
        · simp [shift, txDelta, hd, hk]
    · by_cases hdi : pyLower t.type = "debt_incurred"
      · cases hma : m t.account with
        | none =>
          right
          refine ⟨fun h => ?_, ?_⟩
          · have h1 := h.1 (Or.inr (Or.inr hdi))
            rw [hma] at h1
            simp at h1
          · simp [applyTx, hdi, dadd, hma]
        | some x =>
          left
          refine ⟨by simp [txOK, hdi, hma], ?_⟩
          simp only [applyTx, hdi]
          simp [dadd, hma]
          funext k
          by_cases hk : k = t.account
          · subst hk
            simp [shift, txDelta, hdi, hma]
          · simp [shift, txDelta, hdi, hk]
      · by_cases hts : pyLower t.type = "transferred" ∨ pyLower t.type = "self_transferred"
        · rcases hts with h5 | h5
          all_goals {
            cases hma : m t.account with
            | none =>
              right
              refine ⟨fun h => ?_, ?_⟩
              · have h1 := (h.2 (by simp [h5])).1
                rw [hma] at h1
                simp at h1
              · simp [applyTx, h5, dadd, hma]
            | some x =>
              by_cases hn : t.to_account = "None"
              · left
                refine ⟨by simp [txOK, h5, hma, hn], ?_⟩
                simp only [applyTx, h5]
                simp [dadd, hma, hn]
                funext k
                by_cases hk : k = t.account
                · subst hk
                  simp [shift, txDelta, h5, hma, hn]
                · simp [shift, txDelta, h5, hk, hn]
              · by_cases hta : t.to_account = t.account
                · left
                  refine ⟨by simp [txOK, h5, hma, hn, hta], ?_⟩
                  have hn2 : ¬ t.account = "None" := by rw [← hta]; exact hn
                  simp only [applyTx, h5]
                  simp [dadd, hma, hn, hta, hn2]
                  funext k
                  by_cases hk : k = t.account
                  · subst hk
                    simp [shift, txDelta, h5, hma, hn, hta, hn2]
                  · simp [shift, txDelta, h5, hk, hn, hta]
                · cases hmto : m t.to_account with
                  | none =>
                    right
                    refine ⟨fun h => ?_, ?_⟩
                    · have h1 := (h.2 (by simp [h5])).2 hn
                      rw [hmto] at h1
                      simp at h1
                    · simp [applyTx, h5, dadd, hma, hn, hta, hmto]
                  | some y =>
                    left
                    refine ⟨by simp [txOK, h5, hma, hn, hmto], ?_⟩
                    simp only [applyTx, h5]
                    simp [dadd, hma, hn, hta, hmto]
                    funext k
                    by_cases hk : k = t.to_account
                    · subst hk
                      simp [shift, txDelta, h5, hmto, hn, hta]
                    · by_cases hk2 : k = t.account
                      · subst hk2
                        simp [shift, txDelta, h5, hma, hn, hk]
                      · simp [shift, txDelta, h5, hk, hk2, hn]
          }
        · push_neg at hts
          obtain ⟨ht, hs⟩ := hts
          left
          constructor
          · constructor
            · intro h
              rcases h with h | h | h
              exacts [absurd h hc, absurd h hd, absurd h hdi]
            · intro h
              rcases h with h | h
              exacts [absurd h ht, absurd h hs]
          · simp [applyTx, hc, hd, hdi, ht, hs]
            funext k
            simp [shift, txDelta, hc, hd, hdi, ht, hs]

theorem applyAll_cons (m : BalMap) (t : Txn) (ts : List Txn) :
    applyAll m (t :: ts) = (applyTx m t).bind (fun m1 => applyAll m1 ts) := by
  cases h : applyTx m t <;> simp [applyAll, h]

theorem applyTx_swap (m : BalMap) (a b : Txn) :
    (applyTx m a).bind (fun m1 => applyTx m1 b)
      = (applyTx m b).bind (fun m1 => applyTx m1 a) := by
  rcases applyTx_spec m a with ⟨hoa, ea⟩ | ⟨hna, ea⟩ <;>
    rcases applyTx_spec m b with ⟨hob, eb⟩ | ⟨hnb, eb⟩ <;> simp [ea, eb]
  · rcases applyTx_spec (shift m a) b with ⟨h1, e1⟩ | ⟨h1, e1⟩
    · rcases applyTx_spec (shift m b) a with ⟨h2, e2⟩ | ⟨h2, e2⟩
      · rw [e1, e2, shift_comm]
      · exact absurd ((txOK_shift m a b).mpr hoa) h2
    · exact absurd ((txOK_shift m b a).mpr hob) h1
  · rcases applyTx_spec (shift m a) b with ⟨h1, e1⟩ | ⟨h1, e1⟩
    · exact absurd ((txOK_shift m b a).mp h1) hnb
    · exact e1
  · rcases applyTx_spec (shift m b) a with ⟨h2, e2⟩ | ⟨h2, e2⟩
    · exact absurd ((txOK_shift m a b).mp h2) hna
    · exact e2.symm

theorem applyAll_perm {l1 l2 : List Txn} (h : l1.Perm l2) :
    ∀ m : BalMap, applyAll m l1 = applyAll m l2 := by
  induction h with
  | nil => intro m; rfl
  | cons x _ ih =>
    intro m
    rw [applyAll_cons, applyAll_cons]
    cases applyTx m x with
    | none => rfl
    | some m1 => simp [ih m1]
  | swap x y l =>
    intro m
    simp only [applyAll_cons]
    rw [← Option.bind_assoc, ← Option.bind_assoc, applyTx_swap]
  | trans _ _ ih1 ih2 =>
    intro m
    rw [ih1 m, ih2 m]

theorem val_shift (m : BalMap) (t : Txn) (k : String) (h : (m k).isSome) :
    val (shift m t) k = val m k + txDelta t k := by
  unfold val shift
  cases hmk : m k with
  | none => rw [hmk] at h; simp at h
  | some x => simp

theorem txOK_iff_refOK (m : BalMap) (accounts : List String) (t : Txn)
    (hdom : ∀ k, (m k).isSome ↔ k ∈ accounts) : txOK m t ↔ refOK accounts t := by
  unfold txOK refOK
  simp only [hdom]

theorem seed_isSome (accounts : List String) (k : String) :
    (seed accounts k).isSome ↔ k ∈ accounts := by
  unfold seed
  by_cases h : k ∈ accounts <;> simp [h]

theorem applyAll_isSome_iff (accounts : List String) :
    ∀ (txs : List Txn) (m : BalMap), (∀ k, (m k).isSome ↔ k ∈ accounts) →
      ((applyAll m txs).isSome ↔ ∀ t ∈ txs, refOK accounts t) := by
  intro txs
  induction txs with
  | nil => intro m _; simp [applyAll]
  | cons t ts ih =>
    intro m hdom
    rw [applyAll_cons]
    rcases applyTx_spec m t with ⟨hok, e⟩ | ⟨hnok, e⟩
    · rw [e]
      have hdom2 : ∀ k, ((shift m t) k).isSome ↔ k ∈ accounts := by
        intro k; rw [shift_isSome]; exact hdom k
      simp only [Option.some_bind, List.forall_mem_cons]
      rw [ih (shift m t) hdom2]
      have : refOK accounts t := (txOK_iff_refOK m accounts t hdom).mp hok
      simp [this]
    · rw [e]
      have : ¬ refOK accounts t := fun hr =>
        hnok ((txOK_iff_refOK m accounts t hdom).mpr hr)
      simp [List.forall_mem_cons, this]

theorem frameEq_refl (t : Txn) : frameEq t t := by
  unfold frameEq
  exact ⟨rfl, rfl, rfl, rfl, rfl, rfl, rfl, rfl, rfl, rfl, rfl, rfl⟩

/-! ### Claim theorems -/

/-- C1: starting from two empty accounts Checking and Wallet,
inserting a credit of 100 to Checking and then a transfer of 30 from
Checking to Wallet yields aggregate balances Checking = 70 and
Wallet = 30, and the transfer's stored transaction_balance (the
running balance from Checking's perspective) is 70. -/
theorem mongo_scenario_checking_wallet :
    ((MongoDB.get_account_balances stC1b "u1").map (fun m => (m "Checking", m "Wallet"))
      = some (some 70, some 30))
    ∧ (stC1b.txs.getLast?).map (fun t => t.transaction_balance) = some (some 70) := by
  decide

/-- C3: the two running-balance computations in the source diverge:
the same-account-filtered fold of the persistent-store backends
(MongoDB.insertBalance) and the full-ledger variant of main.py that
also scans incoming transfers (ExpenseTracker.insertBalance) produce
different transaction_balance values on the same history and new
transaction. -/
theorem running_balance_variants_diverge :
    ∃ (hist : List Txn) (r : TxnReq),
      MongoDB.insertBalance hist r ≠ some (ExpenseTracker.insertBalance hist r) := by
  refine ⟨[tDiv], rDiv, ?_⟩
  decide

/-- C2 (amended): the service-layer insert of main.py rejects a
request whose account, or whose non-sentinel to_account, names no
existing account of the owner, raising UnknownAccount before any
write; the data_access backends perform no such validation (see the
counterexample). -/
theorem tracker_unknown_account_rejected (st : St) (uid : String) (r : TxnReq) :
    (¬ accountExists st uid r.account →
      ExpenseTracker.add_transaction st uid r = .error (.UnknownAccount r.account))
    ∧ (accountExists st uid r.account → r.to_account ≠ "None" →
        ¬ accountExists st uid r.to_account →
        ExpenseTracker.add_transaction st uid r = .error (.UnknownAccount r.to_account)) := by
  constructor
  · intro h
    unfold ExpenseTracker.add_transaction
    rw [if_pos h]
  · intro h1 h2 h3
    unfold ExpenseTracker.add_transaction
    rw [if_neg (not_not_intro h1), if_pos ⟨h2, h3⟩]

/-- Witness for C2: concrete rejections of a nonexistent source
account and a nonexistent destination account. -/
theorem tracker_unknown_account_rejected_witness :
    ExpenseTracker.add_transaction stC2 "u1" reqGhost = .error (.UnknownAccount "Ghost")
    ∧ ExpenseTracker.add_transaction stC2 "u1" reqGhostTo = .error (.UnknownAccount "Ghost2") :=
  ⟨(tracker_unknown_account_rejected stC2 "u1" reqGhost).1 (by decide),
   (tracker_unknown_account_rejected stC2 "u1" reqGhostTo).2 (by decide) (by decide) (by decide)⟩

/-- Counterexample for C2 as stated: the data_access insert path
(MongoDB.add_transaction) inserts a record whose account names no
existing account of the owner — it does not fail and the history is
mutated. -/
theorem mongo_unknown_account_inserted_cex :
    ¬ accountExists stC2 "u1" reqGhost.account
    ∧ (MongoDB.add_transaction stC2 "u1" reqGhost).txs.length = stC2.txs.length + 1 := by
  decide

/-- C4: in the aggregate-balance fold, a transferred or
self_transferred transaction with a non-sentinel to_account conserves
money: when account and to_account differ, the two balance deltas sum
to zero; when they coincide, the account's balance is unchanged. -/
theorem aggregate_transfer_conservation (m : BalMap) (t : Txn)
    (hT : pyLower t.type = "transferred" ∨ pyLower t.type = "self_transferred")
    (hN : t.to_account ≠ "None")
    (ha : (m t.account).isSome) (hb : (m t.to_account).isSome) :
    ∃ m2, applyTx m t = some m2
      ∧ (t.account ≠ t.to_account →
          (val m2 t.account - val m t.account)
            + (val m2 t.to_account - val m t.to_account) = 0)
      ∧ (t.account = t.to_account → val m2 t.account = val m t.account) := by
  have hOK : txOK m t := ⟨fun _ => ha, fun _ => ⟨ha, fun _ => hb⟩⟩
  rcases applyTx_spec m t with ⟨_, e⟩ | ⟨hn, _⟩
  · refine ⟨shift m t, e, ?_, ?_⟩
    · intro hne
      rw [val_shift m t t.account ha, val_shift m t t.to_account hb]
      have hne2 := Ne.symm hne
      rcases hT with h5 | h5 <;> simp [txDelta, h5, hne, hne2, hN]
    · intro heq
      rw [val_shift m t t.account ha]
      rcases hT with h5 | h5 <;> simp [txDelta, h5, heq, hN]
  · exact absurd hOK hn

/-- Witness for C4 at a concrete transfer between two seeded
accounts. -/
theorem aggregate_transfer_conservation_witness :
    ∃ m2, applyTx (seed ["A", "B"]) tDiv = some m2
      ∧ (tDiv.account ≠ tDiv.to_account →
          (val m2 tDiv.account - val (seed ["A", "B"]) tDiv.account)
            + (val m2 tDiv.to_account - val (seed ["A", "B"]) tDiv.to_account) = 0)
      ∧ (tDiv.account = tDiv.to_account →
          val m2 tDiv.account = val (seed ["A", "B"]) tDiv.account) :=
  aggregate_transfer_conservation (seed ["A", "B"]) tDiv (by decide) (by decide)
    (by decide) (by decide)

/-- C5: the aggregate current-balance computation is
order-independent — over any permutation of the history it returns
the same account-to-balance mapping. -/
theorem aggregate_perm_invariant (accounts : List String) (l1 l2 : List Txn)
    (h : l1.Perm l2) :
    compute_aggregate_balances accounts l1 = compute_aggregate_balances accounts l2 := by
  unfold compute_aggregate_balances
  exact applyAll_perm ((l1.reverse_perm).trans (h.trans l2.reverse_perm.symm)) (seed accounts)

/-- Witness for C5 at a concrete two-element history and its swap. -/
theorem aggregate_perm_invariant_witness :
    compute_aggregate_balances ["A", "B"] [tDiv, tCr]
      = compute_aggregate_balances ["A", "B"] [tCr, tDiv] :=
  aggregate_perm_invariant ["A", "B"] [tDiv, tCr] [tCr, tDiv] (List.Perm.swap tCr tDiv [])

/-- C6 (amended): no amount validation is performed anywhere on the
insert path: a request with a negative amount passes the
account-existence checks and is inserted, storing the negative amount
verbatim; no InvalidAmount failure exists in the code. -/
theorem negative_amount_accepted (st : St) (uid : String) (r : TxnReq)
    (_hneg : r.amount < 0)
    (hacc : accountExists st uid r.account)
    (hto : r.to_account = "None" ∨ accountExists st uid r.to_account) :
    ∃ st2, ExpenseTracker.add_transaction st uid r = .ok st2
      ∧ ∃ t, st2.txs = st.txs ++ [t] ∧ t.amount = r.amount := by
  have h2 : ¬ (r.to_account ≠ "None" ∧ ¬ accountExists st uid r.to_account) := by
    rcases hto with h | h
    · exact fun hx => hx.1 h
    · exact fun hx => hx.2 h
  unfold ExpenseTracker.add_transaction
  rw [if_neg (not_not_intro hacc), if_neg h2]
  exact ⟨_, rfl, _, rfl, rfl⟩

/-- Witness for C6 at a concrete negative-amount debit. -/
theorem negative_amount_accepted_witness :
    ∃ st2, ExpenseTracker.add_transaction stC6 "u1" reqNeg = .ok st2
      ∧ ∃ t, st2.txs = stC6.txs ++ [t] ∧ t.amount = reqNeg.amount :=
  negative_amount_accepted stC6 "u1" reqNeg (by decide) (by decide) (Or.inl (by decide))

/-- Counterexample for C6 as stated: a negative-amount insert does
not fail with any error — the record is stored with amount -5. -/
theorem tracker_negative_amount_cex :
    reqNeg.amount < 0
    ∧ (ExpenseTracker.add_transaction stC6 "u1" reqNeg).toOption.map
        (fun s => s.txs.map (fun t => t.amount)) = some [-5] := by
  decide

/-- C8: the status update changes only the status field of the
targeted transaction: the store keeps the same transactions in the
same order, every record agrees with its old value on every field
other than status (in particular the stored transaction_balance is
never recomputed), and every non-targeted record is fully unchanged. -/
theorem update_status_frame (txs : List Txn) (uid tid s : String) :
    List.Forall₂
      (fun t t2 => frameEq t t2 ∧ ((t.id = tid ∧ t.user_id = uid) ∨ t2 = t))
      txs (MongoDB.update_transaction_status txs uid tid s).1 := by
  induction txs with
  | nil => exact List.Forall₂.nil
  | cons t ts ih =>
    by_cases h : t.id = tid ∧ t.user_id = uid
    · simp only [MongoDB.update_transaction_status, if_pos h]
      refine List.Forall₂.cons
        ⟨⟨rfl, rfl, rfl, rfl, rfl, rfl, rfl, rfl, rfl, rfl, rfl, rfl⟩, Or.inl h⟩ ?_
      exact List.forall₂_same.mpr (fun x _ => ⟨frameEq_refl x, Or.inr rfl⟩)
    · simp only [MongoDB.update_transaction_status, if_neg h]
      exact List.Forall₂.cons ⟨frameEq_refl t, Or.inr rfl⟩ ih

/-- Witness for C8 at a concrete one-element store. -/
theorem update_status_frame_witness :
    List.Forall₂
      (fun t t2 => frameEq t t2 ∧ ((t.id = "7" ∧ t.user_id = "u1") ∨ t2 = t))
      [tId7] (MongoDB.update_transaction_status [tId7] "u1" "7" "Done").1 :=
  update_status_frame [tId7] "u1" "7" "Done"

theorem mongo_delete_absent (uid tid : String) :
    ∀ txs : List Txn, (∀ t ∈ txs, ¬ (t.id = tid ∧ t.user_id = uid)) →
      (MongoDB.delete_transaction txs uid tid).2 = false := by
  intro txs
  induction txs with
  | nil => intro _; rfl
  | cons t ts ih =>
    intro h
    have hh := h t (List.mem_cons_self t ts)
    simp only [MongoDB.delete_transaction, if_neg hh]
    exact ih (fun x hx => h x (List.mem_cons_of_mem t hx))

theorem mongo_update_absent (uid tid s : String) :
    ∀ txs : List Txn, (∀ t ∈ txs, ¬ (t.id = tid ∧ t.user_id = uid)) →
      (MongoDB.update_transaction_status txs uid tid s).2 = false := by
  intro txs
  induction txs with
  | nil => intro _; rfl
  | cons t ts ih =>
    intro h
    have hh := h t (List.mem_cons_self t ts)
    simp only [MongoDB.update_transaction_status, if_neg hh]
    exact ih (fun x hx => h x (List.mem_cons_of_mem t hx))

/-- C9 (amended): when no transaction with the given id belongs to
the owner, the MongoDB backend's delete and status update report
failure (false), while the SQLite backend's delete and status update
report success (true) unconditionally. -/
theorem absent_target_reports (txs : List Txn) (uid tid s : String)
    (h : ∀ t ∈ txs, ¬ (t.id = tid ∧ t.user_id = uid)) :
    (MongoDB.delete_transaction txs uid tid).2 = false
    ∧ (MongoDB.update_transaction_status txs uid tid s).2 = false
    ∧ (SQLiteDatabase.delete_transaction txs uid tid).2 = true
    ∧ (SQLiteDatabase.update_transaction_status txs uid tid s).2 = true :=
  ⟨mongo_delete_absent uid tid txs h, mongo_update_absent uid tid s txs h, rfl, rfl⟩

/-- Witness for C9 at a concrete store without the targeted id. -/
theorem absent_target_reports_witness :
    (MongoDB.delete_transaction [tId7] "u1" "999").2 = false
    ∧ (MongoDB.update_transaction_status [tId7] "u1" "999" "Done").2 = false
    ∧ (SQLiteDatabase.delete_transaction [tId7] "u1" "999").2 = true
    ∧ (SQLiteDatabase.update_transaction_status [tId7] "u1" "999" "Done").2 = true :=
  absent_target_reports [tId7] "u1" "999" "Done" (by decide)

/-- Counterexample for C9 as stated: on an empty store (so the target
is certainly absent for the owner) the SQLite backend's delete and
status update both report success. -/
theorem sqlite_absent_target_true_cex :
    (SQLiteDatabase.delete_transaction [] "u1" "1").2 = true
    ∧ (SQLiteDatabase.update_transaction_status [] "u1" "1" "Done").2 = true := by
  decide

/-- C10: the aggregate-balance computation is total exactly when
every transaction references only known account names (source account
for the recognised types; destination account of a transfer when
to_account is not the sentinel); the balance map is seeded with
exactly the owner's account names, and any other referenced name
makes the computation fail instead of defaulting to zero. -/
theorem aggregate_totality (st : St) (uid : String) :
    ((MongoDB.get_account_balances st uid).isSome ↔
      ∀ t ∈ userTxs st uid, refOK (userAccountNames st uid) t)
    ∧ (∀ k, seed (userAccountNames st uid) k = some 0 ↔ k ∈ userAccountNames st uid) := by
  constructor
  · unfold MongoDB.get_account_balances compute_aggregate_balances
    rw [applyAll_isSome_iff (userAccountNames st uid) (userTxs st uid).reverse
      (seed (userAccountNames st uid)) (seed_isSome (userAccountNames st uid))]
    constructor
    · intro h t ht
      exact h t (List.mem_reverse.mpr ht)
    · intro h t ht
      exact h t (List.mem_reverse.mp ht)
  · intro k
    unfold seed
    by_cases h : k ∈ userAccountNames st uid <;> simp [h]

/-- Witness for C10: on the concrete two-account scenario state the
aggregate computation succeeds, via the totality direction. -/
theorem aggregate_totality_witness :
    (MongoDB.get_account_balances stC1b "u1").isSome :=
  (aggregate_totality stC1b "u1").1.mpr (by decide)
